import Mathlib

/-!
Shallow embedding of the pytoys SSH fleet command-execution engine
(`src/ssh_run.py` and its near-identical variant `src/ssh_command_runner.py`).

The engine's per-device pipeline (`run_commands` / `run_commands_on_device`)
walks an ordered command list against one SSH session, enforcing a per-command
timeout with a single reconnect attempt on timeout, writing a per-device log,
and advancing a shared progress counter once per loop iteration.  The
nondeterministic outside world (whether a connection succeeds, whether a
command completes or times out, whether stderr is non-empty) is captured by an
environment `Env`; the pipeline is then a pure function from the environment
and the command list to the emitted event trace and a terminal status.
-/

namespace PyToys

/-- A command entry of the YAML `commands` list: `cmd.get("command")`,
`cmd.get("timeout", DEFAULT_TIMEOUT)` with `DEFAULT_TIMEOUT = 120`, and
`cmd.get("sleep", 0)`. -/
structure Cmd where
  command : Option String := none
  timeout : Nat := 120
  sleep : Nat := 0
deriving Repr, DecidableEq

/-- Outcome of one `execute_ssh_command` call as seen by the pipeline loop:
either it returns `(output, error)` or it raises `TimeoutError`. -/
inductive ExecResult where
  | ok (output : String) (error : String)
  | timedOut
deriving Repr, DecidableEq

/-- The environment a single device pipeline runs against: the outcome of the
initial `connect_ssh`, the outcome of executing the command at each index, and
the outcome of the reconnect `connect_ssh` call made after a timeout at each
index. -/
structure Env where
  initialConnect : Bool
  exec : Nat → ExecResult
  reconnect : Nat → Bool

/-- Observable events of one device pipeline, in program order.  Log writes,
session operations and progress-bar updates are all recorded here; `execStart i`
is the `ssh.exec_command` issue (plus its "Executing command" log line) for the
command at index `i`. -/
inductive Event where
  | connectOk
  | connectFailed
  | execStart (i : Nat)
  | execOutput (i : Nat)
  | execError (i : Nat)
  | timeout (i : Nat)
  | sessionClose
  | reconnectAttempt (i : Nat)
  | reconnectOk (i : Nat)
  | reconnectFailed (i : Nat)
  | sleepFor (i : Nat) (secs : Nat)
  | progressAdvance (n : Nat)
deriving Repr, DecidableEq

/-- Terminal status of one device pipeline: `completed` when the loop ran off
the end of the command list, `failed` when the initial connect failed or the
loop was broken by a failed reconnect. -/
inductive Status where
  | completed
  | failed
deriving Repr, DecidableEq

/-- Python truthiness of `cmd.get("command")`: a command is executed only when
the key is present and the string is non-empty (`if command:`). -/
def hasCommand (c : Cmd) : Bool :=
  match c.command with
  | none => false
  | some s => s ≠ ""

/-- The `if command:` body of one loop iteration of `run_commands` for the
command at index `k`: the events it emits and whether the loop continues
(`false` exactly on the `break` after a failed reconnect). -/
def unitStep (env : Env) (k : Nat) (c : Cmd) : List Event × Bool :=
  if hasCommand c then
    match env.exec k with
    | .ok _ err =>
        ([Event.execStart k, if err = "" then Event.execOutput k else Event.execError k], true)
    | .timedOut =>
        if env.reconnect k then
          ([Event.execStart k, Event.timeout k, Event.sessionClose,
            Event.reconnectAttempt k, Event.reconnectOk k], true)
        else
          ([Event.execStart k, Event.timeout k, Event.sessionClose,
            Event.reconnectAttempt k, Event.reconnectFailed k], false)
  else ([], true)

/-- The `if sleep_time > 0:` part of one loop iteration. -/
def sleepEvs (k : Nat) (c : Cmd) : List Event :=
  if c.sleep > 0 then [Event.sleepFor k c.sleep] else []

/-- The `for cmd in commands:` loop of `run_commands`, starting at absolute
command index `k`.  Each iteration runs `unitStep`, then (when not broken) the
optional sleep and the `progress.update(task_id, advance=1)`; the `break` on a
failed reconnect exits before the sleep and before the progress update. -/
def runCmds (env : Env) : List Cmd → Nat → List Event × Status
  | [], _ => ([], Status.completed)
  | c :: rest, k =>
    let s := unitStep env k c
    if s.2 then
      let tail := runCmds env rest (k + 1)
      (s.1 ++ sleepEvs k c ++ Event.progressAdvance 1 :: tail.1, tail.2)
    else
      (s.1, Status.failed)

/-- `run_commands` (one device pipeline): initial `connect_ssh`; on failure log
and `progress.update(advance=len(commands))` and return; otherwise run the
loop, closing the session at the end when it is still open (it is `None`
exactly when the loop was broken by a failed reconnect). -/
def run_commands (env : Env) (cmds : List Cmd) : List Event × Status :=
  if env.initialConnect then
    let r := runCmds env cmds 0
    (Event.connectOk :: (r.1 ++ if r.2 = Status.completed then [Event.sessionClose] else []),
     r.2)
  else
    ([Event.connectFailed, Event.progressAdvance cmds.length], Status.failed)

/-- Total progress-counter increments recorded in an event trace. -/
def progressOf : List Event → Nat
  | [] => 0
  | Event.progressAdvance n :: rest => n + progressOf rest
  | _ :: rest => progressOf rest

/-- Number of times the command at index `j` is issued in an event trace. -/
def countExec (j : Nat) : List Event → Nat
  | [] => 0
  | e :: rest => (if e = Event.execStart j then 1 else 0) + countExec j rest

/-- The orchestrator (`run` / `main`): one pipeline per device, every device
running the same shared command list. -/
def runAll (envs : List Env) (cmds : List Cmd) : List (List Event × Status) :=
  envs.map fun env => run_commands env cmds

/-- Sum of all progress increments over the whole run. -/
def totalProgress (envs : List Env) (cmds : List Cmd) : Nat :=
  ((runAll envs cmds).map fun r => progressOf r.1).sum

/-! ### Connection establishment

`ssh_run.py`'s `connect_ssh` loops `for attempt in range(retries)` (default 3):
each failed `ssh.connect` is followed by `time.sleep(5)` before the next
attempt; a successful attempt returns at once; after all attempts it returns
`None`.  `ssh_command_runner.py`'s `connect_ssh` makes a single `ssh.connect`
attempt with no retry loop and no sleep.  `outcome i` abstracts whether the
`i`-th underlying `ssh.connect` call would succeed. -/

/-- Events of a connect routine: one TCP/auth attempt, or the fixed backoff
sleep between attempts. -/
inductive ConnEvent where
  | attempt (i : Nat)
  | backoff (secs : Nat)
deriving Repr, DecidableEq

/-- The `for attempt in range(retries)` loop of `ssh_run.py:connect_ssh`,
returning the index of the first successful attempt, or `none` when all
`retries` remaining attempts fail. -/
def connectAttempts (outcome : Nat → Bool) : Nat → Nat → Option Nat
  | 0, _ => none
  | n + 1, i => if outcome i then some i else connectAttempts outcome n (i + 1)

/-- Event trace of the same loop: each failed attempt is followed by
`time.sleep(5)`; a successful attempt ends the trace. -/
def connectTrace (outcome : Nat → Bool) : Nat → Nat → List ConnEvent
  | 0, _ => []
  | n + 1, i =>
    if outcome i then [ConnEvent.attempt i]
    else ConnEvent.attempt i :: ConnEvent.backoff 5 :: connectTrace outcome n (i + 1)

/-- `ssh_run.py:connect_ssh` with its default `retries=3`. -/
def ssh_run_connect (outcome : Nat → Bool) : Option Nat :=
  connectAttempts outcome 3 0

/-- Event trace of `ssh_run.py:connect_ssh` with `retries=3`. -/
def ssh_run_connectTrace (outcome : Nat → Bool) : List ConnEvent :=
  connectTrace outcome 3 0

/-- `ssh_command_runner.py:connect_ssh`: a single attempt, success iff that
one attempt succeeds. -/
def scr_connect (outcome : Nat → Bool) : Bool :=
  outcome 0

/-- Event trace of `ssh_command_runner.py:connect_ssh`: exactly one attempt,
never a backoff sleep. -/
def scr_connectTrace (_outcome : Nat → Bool) : List ConnEvent :=
  [ConnEvent.attempt 0]

/-! ### Worker-pool sizing

`ssh_run.py:run` computes `max_workers = min(10, num_devices)`;
`ssh_command_runner.py:main` passes `max_workers=len(devices)` with no cap. -/

/-- `max_workers = min(10, num_devices)` in `ssh_run.py:run`. -/
def ssh_run_max_workers (numDevices : Nat) : Nat :=
  min 10 numDevices

/-- `ThreadPoolExecutor(max_workers=len(devices))` in
`ssh_command_runner.py:main`. -/
def scr_max_workers (numDevices : Nat) : Nat :=
  numDevices

/-! ### Timeout-bounded command execution

`execute_ssh_command` polls `stdout.channel.exit_status_ready()` once per
second; when the elapsed wall-clock time exceeds the timeout it closes the
stdin, stdout and stderr channels and raises `TimeoutError`.  `ready n` and
`elapsed n` abstract the poll result and the elapsed seconds observed at the
`n`-th loop iteration; the loop is run on explicit fuel, `none` standing for a
poll loop that never terminates within the fuel. -/

/-- Open/closed state of the three channels of one `exec_command` call at the
moment the call returns or raises. -/
structure Channels where
  stdinClosed : Bool
  stdoutClosed : Bool
  stderrClosed : Bool
deriving Repr, DecidableEq

/-- Outcome of `execute_ssh_command`: a normal return of `(output, error)`, or
the raised `TimeoutError`. -/
inductive ExecOutcome where
  | ok (output : String) (error : String)
  | timedOutRaised
deriving Repr, DecidableEq

/-- The `while True:` poll loop of `execute_ssh_command`, at iteration `n`:
if the exit status is ready, read and return with all channels still open
(the function never closes them on the success path); else if
`time.time() - start_time > timeout`, close stdin, stdout and stderr channels
and raise; else sleep one second and poll again. -/
def execPoll (ready : Nat → Bool) (elapsed : Nat → Nat) (timeout : Nat)
    (out err : String) : Nat → Nat → Option (Channels × ExecOutcome)
  | 0, _ => none
  | fuel + 1, n =>
    if ready n then some (⟨false, false, false⟩, ExecOutcome.ok out err)
    else if elapsed n > timeout then some (⟨true, true, true⟩, ExecOutcome.timedOutRaised)
    else execPoll ready elapsed timeout out err fuel (n + 1)

/-- `execute_ssh_command` (identical in both variants as
`execute_ssh_command_with_timeout`): run the poll loop from iteration 0. -/
def execute_ssh_command (ready : Nat → Bool) (elapsed : Nat → Nat) (timeout : Nat)
    (out err : String) (fuel : Nat) : Option (Channels × ExecOutcome) :=
  execPoll ready elapsed timeout out err fuel 0

/-! ### Concrete fixtures used to instantiate the theorems -/

/-- A plain command unit. -/
def cmdA : Cmd := { command := some "a" }

/-- A second plain command unit. -/
def cmdB : Cmd := { command := some "b" }

/-- A sleep-only unit (no command text). -/
def cmdSleep : Cmd := { sleep := 5 }

/-- A unit carrying both a command text and a sleep duration. -/
def cmdBoth : Cmd := { command := some "x", sleep := 2 }

/-- Environment: connects, every command succeeds with empty stderr. -/
def okEnv : Env :=
  { initialConnect := true
    exec := fun _ => ExecResult.ok "out" ""
    reconnect := fun _ => true }

/-- Environment: the command at index 0 times out, reconnect succeeds, later
commands succeed. -/
def toOkEnv : Env :=
  { initialConnect := true
    exec := fun i => if i = 0 then ExecResult.timedOut else ExecResult.ok "out" ""
    reconnect := fun _ => true }

/-- Environment: every command times out and every reconnect fails. -/
def toFailEnv : Env :=
  { initialConnect := true
    exec := fun _ => ExecResult.timedOut
    reconnect := fun _ => false }

/-- Environment: permanent connection failure (initial connect never
succeeds). -/
def deadEnv : Env :=
  { initialConnect := false
    exec := fun _ => ExecResult.timedOut
    reconnect := fun _ => false }

/-! ### Helper lemmas -/

theorem countExec_append (j : Nat) (l₁ l₂ : List Event) :
    countExec j (l₁ ++ l₂) = countExec j l₁ + countExec j l₂ := by
  induction l₁ with
  | nil => simp [countExec]
  | cons e rest ih => simp [countExec, ih, Nat.add_assoc]

theorem progressOf_append (l₁ l₂ : List Event) :
    progressOf (l₁ ++ l₂) = progressOf l₁ + progressOf l₂ := by
  induction l₁ with
  | nil => simp [progressOf]
  | cons e rest ih =>
    cases e <;> simp [progressOf, ih, Nat.add_assoc]

theorem countExec_sleepEvs (j k : Nat) (c : Cmd) :
    countExec j (sleepEvs k c) = 0 := by
  unfold sleepEvs
  split <;> simp [countExec]

theorem progressOf_sleepEvs (k : Nat) (c : Cmd) :
    progressOf (sleepEvs k c) = 0 := by
  unfold sleepEvs
  split <;> simp [progressOf]

/-- The loop body for index `k` issues the command exactly once when there is
a (truthy) command text, and never issues any other index. -/
theorem countExec_unitStep (env : Env) (k j : Nat) (c : Cmd) :
    countExec j (unitStep env k c).1 =
      if j = k ∧ hasCommand c = true then 1 else 0 := by
  unfold unitStep
  cases hc : hasCommand c
  · simp [countExec, hc]
  · by_cases hj : j = k
    · subst hj
      cases henv : env.exec j with
      | ok out err => by_cases he : err = "" <;> simp [hc, he, countExec]
      | timedOut => by_cases hr : env.reconnect j <;> simp [hc, hr, countExec]
    · have hj2 : k ≠ j := fun h => hj h.symm
      cases henv : env.exec k with
      | ok out err => by_cases he : err = "" <;> simp [hc, he, hj, hj2, countExec]
      | timedOut => by_cases hr : env.reconnect k <;> simp [hc, hr, hj, hj2, countExec]

/-- Indices below the loop's starting index are never issued. -/
theorem countExec_runCmds_lt (env : Env) (cs : List Cmd) (j : Nat) :
    ∀ k, j < k → countExec j (runCmds env cs k).1 = 0 := by
  induction cs with
  | nil => intro k _; simp [runCmds, countExec]
  | cons c rest ih =>
    intro k hk
    simp only [runCmds]
    split
    · rw [countExec_append, countExec_append, countExec_unitStep,
        countExec_sleepEvs]
      have hne : ¬ (j = k ∧ hasCommand c = true) := fun h => absurd h.1 (Nat.ne_of_lt hk)
      have ht := ih (k + 1) (Nat.lt_succ_of_lt hk)
      simp [hne, countExec, ht]
    · rw [countExec_unitStep]
      have hne : ¬ (j = k ∧ hasCommand c = true) := fun h => absurd h.1 (Nat.ne_of_lt hk)
      simp [hne]

/-- Across a whole loop run, every command index is issued at most once. -/
theorem countExec_runCmds_le (env : Env) (cs : List Cmd) (j : Nat) :
    ∀ k, countExec j (runCmds env cs k).1 ≤ 1 := by
  induction cs with
  | nil => intro k; simp [runCmds, countExec]
  | cons c rest ih =>
    intro k
    simp only [runCmds]
    split
    · rw [countExec_append, countExec_append, countExec_unitStep,
        countExec_sleepEvs]
      by_cases hj : j = k
      · subst hj
        have ht := countExec_runCmds_lt env rest j (j + 1) (Nat.lt_succ_self j)
        simp [countExec, ht]
        split <;> simp
      · have := ih (k + 1)
        simp [hj, countExec]
        exact this
    · rw [countExec_unitStep]
      split <;> simp

/-- Across a whole pipeline run, every command index is issued at most once. -/
theorem countExec_run_commands_le (env : Env) (cs : List Cmd) (j : Nat) :
    countExec j (run_commands env cs).1 ≤ 1 := by
  unfold run_commands
  cases hic : env.initialConnect
  · simp [countExec]
  · simp only [if_true]
    have h1 := countExec_runCmds_le env cs j 0
    have h2 : countExec j
        (if (runCmds env cs 0).2 = Status.completed then [Event.sessionClose] else []) = 0 := by
      split <;> simp [countExec]
    simp only [countExec, countExec_append, h2]
    simpa using h1

/-! ### Claim theorems -/

/-- C2: in any device pipeline where the command at index `k` times out and
the subsequent reconnect succeeds, that command is issued at most once over
the whole pipeline (never re-issued after the timeout), and the pipeline
continues with the rest of the sequence at index `k + 1`. -/
theorem C2_timeout_resume (env : Env) (cs₁ cs₂ : List Cmd) (c : Cmd)
    (hc : hasCommand c = true)
    (ht : env.exec cs₁.length = ExecResult.timedOut)
    (hr : env.reconnect cs₁.length = true) :
    countExec cs₁.length (run_commands env (cs₁ ++ c :: cs₂)).1 ≤ 1 ∧
    runCmds env (c :: cs₂) cs₁.length =
      (Event.execStart cs₁.length :: Event.timeout cs₁.length :: Event.sessionClose ::
        Event.reconnectAttempt cs₁.length :: Event.reconnectOk cs₁.length ::
        (sleepEvs cs₁.length c ++
          Event.progressAdvance 1 :: (runCmds env cs₂ (cs₁.length + 1)).1),
       (runCmds env cs₂ (cs₁.length + 1)).2) := by
  refine ⟨countExec_run_commands_le env (cs₁ ++ c :: cs₂) cs₁.length, ?_⟩
  have hstep : unitStep env cs₁.length c =
      ([Event.execStart cs₁.length, Event.timeout cs₁.length, Event.sessionClose,
        Event.reconnectAttempt cs₁.length, Event.reconnectOk cs₁.length], true) := by
    simp [unitStep, hc, ht, hr]
  simp [runCmds, hstep]

/-- C2 witness: one device, commands `[a, b]`, command 0 times out and the
reconnect succeeds; command 0 appears once and command 1 is then executed. -/
theorem C2_timeout_resume_witness :
    hasCommand cmdA = true ∧
    toOkEnv.exec 0 = ExecResult.timedOut ∧
    toOkEnv.reconnect 0 = true ∧
    countExec 0 (run_commands toOkEnv ([] ++ cmdA :: [cmdB])).1 ≤ 1 ∧
    runCmds toOkEnv [cmdA, cmdB] 0 =
      ([Event.execStart 0, Event.timeout 0, Event.sessionClose,
        Event.reconnectAttempt 0, Event.reconnectOk 0, Event.progressAdvance 1,
        Event.execStart 1, Event.execOutput 1, Event.progressAdvance 1],
       Status.completed) :=
  ⟨rfl, rfl, rfl,
   (C2_timeout_resume toOkEnv [] [cmdB] cmdA rfl rfl rfl).1,
   (C2_timeout_resume toOkEnv [] [cmdB] cmdA rfl rfl rfl).2⟩

/-- C3: in any device pipeline, when the command at index `k` times out, the
in-flight command is issued exactly once (abandoned, never retried), the stale
session is closed immediately, and exactly one reconnect attempt follows; if
that reconnect fails the pipeline stops with no further events (it gives up on
the remaining sequence for that device). -/
theorem C3_timeout_single_reconnect (env : Env) (cs₂ : List Cmd) (c : Cmd) (k : Nat)
    (hc : hasCommand c = true)
    (ht : env.exec k = ExecResult.timedOut) :
    countExec k (runCmds env (c :: cs₂) k).1 = 1 ∧
    runCmds env (c :: cs₂) k =
      (if env.reconnect k then
        (Event.execStart k :: Event.timeout k :: Event.sessionClose ::
          Event.reconnectAttempt k :: Event.reconnectOk k ::
          (sleepEvs k c ++ Event.progressAdvance 1 :: (runCmds env cs₂ (k + 1)).1),
         (runCmds env cs₂ (k + 1)).2)
      else
        ([Event.execStart k, Event.timeout k, Event.sessionClose,
          Event.reconnectAttempt k, Event.reconnectFailed k], Status.failed)) := by
  have hrun : runCmds env (c :: cs₂) k =
      (if env.reconnect k then
        (Event.execStart k :: Event.timeout k :: Event.sessionClose ::
          Event.reconnectAttempt k :: Event.reconnectOk k ::
          (sleepEvs k c ++ Event.progressAdvance 1 :: (runCmds env cs₂ (k + 1)).1),
         (runCmds env cs₂ (k + 1)).2)
      else
        ([Event.execStart k, Event.timeout k, Event.sessionClose,
          Event.reconnectAttempt k, Event.reconnectFailed k], Status.failed)) := by
    by_cases hrec : env.reconnect k
    · have hstep : unitStep env k c =
          ([Event.execStart k, Event.timeout k, Event.sessionClose,
            Event.reconnectAttempt k, Event.reconnectOk k], true) := by
        simp [unitStep, hc, ht, hrec]
      simp [runCmds, hstep, hrec]
    · have hstep : unitStep env k c =
          ([Event.execStart k, Event.timeout k, Event.sessionClose,
            Event.reconnectAttempt k, Event.reconnectFailed k], false) := by
        simp [unitStep, hc, ht, hrec]
      simp [runCmds, hstep, hrec]
  refine ⟨?_, hrun⟩
  rw [hrun]
  by_cases hrec : env.reconnect k <;>
    simp [hrec, countExec, countExec_append, countExec_sleepEvs,
      countExec_runCmds_lt env cs₂ k (k + 1) (Nat.lt_succ_self k)]

/-- C3 witness: a timeout at index 0 whose reconnect fails: the command is
issued once, the session closed, one reconnect attempted, then the pipeline
ends failed with command 1 never reached. -/
theorem C3_timeout_single_reconnect_witness :
    hasCommand cmdA = true ∧
    toFailEnv.exec 0 = ExecResult.timedOut ∧
    countExec 0 (runCmds toFailEnv [cmdA, cmdB] 0).1 = 1 ∧
    runCmds toFailEnv [cmdA, cmdB] 0 =
      ([Event.execStart 0, Event.timeout 0, Event.sessionClose,
        Event.reconnectAttempt 0, Event.reconnectFailed 0], Status.failed) :=
  ⟨rfl, rfl,
   (C3_timeout_single_reconnect toFailEnv [cmdB] cmdA 0 rfl rfl).1,
   (C3_timeout_single_reconnect toFailEnv [cmdB] cmdA 0 rfl rfl).2⟩

/-- C9: a unit with no command text (sleep-only or fully empty) performs no
remote execution, still advances the progress counter by exactly one, and
occupies its ordering position (the rest of the sequence continues at the next
index). -/
theorem C9_no_command_unit (env : Env) (cs₂ : List Cmd) (c : Cmd) (k : Nat)
    (hc : c.command = none) :
    runCmds env (c :: cs₂) k =
      (sleepEvs k c ++ Event.progressAdvance 1 :: (runCmds env cs₂ (k + 1)).1,
       (runCmds env cs₂ (k + 1)).2) ∧
    (∀ j, countExec j (runCmds env (c :: cs₂) k).1 =
      countExec j (runCmds env cs₂ (k + 1)).1) ∧
    progressOf (runCmds env (c :: cs₂) k).1 =
      1 + progressOf (runCmds env cs₂ (k + 1)).1 := by
  have hstep : unitStep env k c = ([], true) := by
    simp [unitStep, hasCommand, hc]
  have hrun : runCmds env (c :: cs₂) k =
      (sleepEvs k c ++ Event.progressAdvance 1 :: (runCmds env cs₂ (k + 1)).1,
       (runCmds env cs₂ (k + 1)).2) := by
    simp [runCmds, hstep]
  refine ⟨hrun, fun j => ?_, ?_⟩
  · rw [hrun]
    simp [countExec_append, countExec_sleepEvs, countExec]
  · rw [hrun]
    simp [progressOf_append, progressOf_sleepEvs, progressOf]

/-- C9 witness: a sleep-only unit followed by a command unit: no execution for
the sleep unit, one progress advance, and the command unit runs at index 1. -/
theorem C9_no_command_unit_witness :
    cmdSleep.command = none ∧
    runCmds okEnv [cmdSleep, cmdA] 0 =
      ([Event.sleepFor 0 5, Event.progressAdvance 1, Event.execStart 1,
        Event.execOutput 1, Event.progressAdvance 1], Status.completed) ∧
    countExec 0 (runCmds okEnv [cmdSleep, cmdA] 0).1 =
      countExec 0 (runCmds okEnv [cmdA] 1).1 ∧
    progressOf (runCmds okEnv [cmdSleep, cmdA] 0).1 =
      1 + progressOf (runCmds okEnv [cmdA] 1).1 :=
  ⟨rfl,
   (C9_no_command_unit okEnv [cmdA] cmdSleep 0 rfl).1,
   (C9_no_command_unit okEnv [cmdA] cmdSleep 0 rfl).2.1 0,
   (C9_no_command_unit okEnv [cmdA] cmdSleep 0 rfl).2.2⟩

/-- C10: a unit carrying both a command text and a sleep duration executes the
command first and then sleeps, advancing progress exactly once; and when the
command times out but the reconnect succeeds, the sleep of that same unit is
still performed before the next unit. -/
theorem C10_command_and_sleep (env : Env) (cs₂ : List Cmd) (c : Cmd) (k : Nat)
    (s : String) (hc : c.command = some s) (hs : s ≠ "") (hsl : 0 < c.sleep) :
    (∀ out err, env.exec k = ExecResult.ok out err →
      runCmds env (c :: cs₂) k =
        (Event.execStart k ::
          (if err = "" then Event.execOutput k else Event.execError k) ::
          Event.sleepFor k c.sleep :: Event.progressAdvance 1 ::
          (runCmds env cs₂ (k + 1)).1,
         (runCmds env cs₂ (k + 1)).2)) ∧
    (env.exec k = ExecResult.timedOut → env.reconnect k = true →
      runCmds env (c :: cs₂) k =
        (Event.execStart k :: Event.timeout k :: Event.sessionClose ::
          Event.reconnectAttempt k :: Event.reconnectOk k ::
          Event.sleepFor k c.sleep :: Event.progressAdvance 1 ::
          (runCmds env cs₂ (k + 1)).1,
         (runCmds env cs₂ (k + 1)).2)) := by
  have hcmd : hasCommand c = true := by simp [hasCommand, hc, hs]
  have hsleep : sleepEvs k c = [Event.sleepFor k c.sleep] := by
    simp [sleepEvs, hsl]
  constructor
  · intro out err hok
    have hstep : unitStep env k c =
        ([Event.execStart k,
          if err = "" then Event.execOutput k else Event.execError k], true) := by
      simp [unitStep, hcmd, hok]
    simp [runCmds, hstep, hsleep]
  · intro ht hr
    have hstep : unitStep env k c =
        ([Event.execStart k, Event.timeout k, Event.sessionClose,
          Event.reconnectAttempt k, Event.reconnectOk k], true) := by
      simp [unitStep, hcmd, ht, hr]
    simp [runCmds, hstep, hsleep]

/-- C10 witness: the command+sleep unit on a healthy session (command, then
sleep, then one advance) and the same unit when the command times out and the
reconnect succeeds (the sleep is still performed). -/
theorem C10_command_and_sleep_witness :
    cmdBoth.command = some "x" ∧ 0 < cmdBoth.sleep ∧
    runCmds okEnv [cmdBoth] 0 =
      ([Event.execStart 0, Event.execOutput 0, Event.sleepFor 0 2,
        Event.progressAdvance 1], Status.completed) ∧
    runCmds toOkEnv [cmdBoth] 0 =
      ([Event.execStart 0, Event.timeout 0, Event.sessionClose,
        Event.reconnectAttempt 0, Event.reconnectOk 0, Event.sleepFor 0 2,
        Event.progressAdvance 1], Status.completed) :=
  ⟨rfl, by decide,
   (C10_command_and_sleep okEnv [] cmdBoth 0 "x" rfl (by decide) (by decide)).1
     "out" "" rfl,
   (C10_command_and_sleep toOkEnv [] cmdBoth 0 "x" rfl (by decide) (by decide)).2
     rfl rfl⟩

/-- C1: evaluation at the failing input.  One device that connects, one
command; the command times out and the reconnect fails.  The `break` in the
loop is reached before the per-iteration progress update, so the run's total
progress is 0, while the claimed invariant requires
`|devices| × |commands| = 1`. -/
theorem C1_progress_undercount :
    totalProgress [toFailEnv] [cmdA] = 0 ∧
    ([toFailEnv] : List Env).length * ([cmdA] : List Cmd).length = 1 :=
  ⟨rfl, rfl⟩

/-- C4: evaluation at the failing input.  Device connects, commands `[a, b]`;
command 0 times out and the reconnect fails.  The pipeline does end `failed`
and command 1 is indeed never executed, but the trace stops at the failed
reconnect: no skip entry is logged for command 1 and no progress is advanced
(0 increments instead of the claimed 2). -/
theorem C4_reconnect_exhaustion_eval :
    run_commands toFailEnv [cmdA, cmdB] =
      ([Event.connectOk, Event.execStart 0, Event.timeout 0, Event.sessionClose,
        Event.reconnectAttempt 0, Event.reconnectFailed 0], Status.failed) ∧
    progressOf (run_commands toFailEnv [cmdA, cmdB]).1 = 0 ∧
    countExec 1 (run_commands toFailEnv [cmdA, cmdB]).1 = 0 :=
  ⟨rfl, rfl, rfl⟩

/-- C5 counterexample: with 11 devices, `ssh_command_runner.py` passes
`max_workers = len(devices) = 11`, not `min(10, 11) = 10`. -/
theorem C5_no_cap_counterexample : ¬ scr_max_workers 11 = min 10 11 := by
  decide

/-- C5 amended: `ssh_run.py` computes its pool size as `min(10, device
count)` (so it never exceeds 10), while `ssh_command_runner.py` sizes the pool
as the device count itself, with no fixed cap. -/
theorem C5_worker_pool_sizes (n : Nat) :
    ssh_run_max_workers n = min 10 n ∧
    ssh_run_max_workers n ≤ 10 ∧
    scr_max_workers n = n :=
  ⟨rfl, Nat.min_le_left 10 n, rfl⟩

/-- C6 counterexample: `ssh_command_runner.py`'s connect makes exactly one
attempt with no backoff event, and on an outcome where the first attempt fails
but an immediate retry would succeed it reports failure, while `ssh_run.py`'s
retrying connect succeeds on the same outcome. -/
theorem C6_no_retry_counterexample :
    scr_connectTrace (fun _ => false) = [ConnEvent.attempt 0] ∧
    scr_connect (fun i => decide (i = 1)) = false ∧
    ssh_run_connect (fun i => decide (i = 1)) = some 1 :=
  ⟨rfl, rfl, rfl⟩

/-- C6 amended: `ssh_run.py` retries the initial connect up to 3 attempts with
a fixed 5-second backoff after each failed attempt, and returns `None`
(device marked Failed) exactly when all 3 attempts fail; `ssh_command_runner.py`
makes a single attempt with no retry and no backoff, succeeding iff that one
attempt succeeds. -/
theorem C6_connect_retry (outcome : Nat → Bool) :
    (ssh_run_connect outcome = none ↔
      outcome 0 = false ∧ outcome 1 = false ∧ outcome 2 = false) ∧
    (outcome 0 = false ∧ outcome 1 = false ∧ outcome 2 = false →
      ssh_run_connectTrace outcome =
        [ConnEvent.attempt 0, ConnEvent.backoff 5, ConnEvent.attempt 1,
         ConnEvent.backoff 5, ConnEvent.attempt 2, ConnEvent.backoff 5]) ∧
    scr_connectTrace outcome = [ConnEvent.attempt 0] ∧
    (scr_connect outcome = true ↔ outcome 0 = true) := by
  cases h0 : outcome 0 <;> cases h1 : outcome 1 <;> cases h2 : outcome 2 <;>
    simp [ssh_run_connect, connectAttempts, ssh_run_connectTrace, connectTrace,
      scr_connectTrace, scr_connect, h0, h1, h2]

/-- C6 witness: with every attempt failing, `ssh_run.py`'s connect performs
its 3 attempts with the 5-second backoff after each and returns `None`. -/
theorem C6_connect_retry_witness :
    ssh_run_connectTrace (fun _ => false) =
      [ConnEvent.attempt 0, ConnEvent.backoff 5, ConnEvent.attempt 1,
       ConnEvent.backoff 5, ConnEvent.attempt 2, ConnEvent.backoff 5] ∧
    ssh_run_connect (fun _ => false) = none :=
  ⟨(C6_connect_retry (fun _ => false)).2.1 ⟨rfl, rfl, rfl⟩,
   (C6_connect_retry (fun _ => false)).1.mpr ⟨rfl, rfl, rfl⟩⟩

/-- C7: whenever the poll loop of `execute_ssh_command` ends by raising
`TimeoutError`, the stdin, stdout and stderr channels of that command have all
been closed first. -/
theorem C7_timeout_closes_channels (ready : Nat → Bool) (elapsed : Nat → Nat)
    (timeout : Nat) (out err : String) (fuel : Nat) (ch : Channels)
    (h : execute_ssh_command ready elapsed timeout out err fuel =
      some (ch, ExecOutcome.timedOutRaised)) :
    ch.stdinClosed = true ∧ ch.stdoutClosed = true ∧ ch.stderrClosed = true := by
  have main : ∀ f n, execPoll ready elapsed timeout out err f n =
      some (ch, ExecOutcome.timedOutRaised) → ch = ⟨true, true, true⟩ := by
    intro f
    induction f with
    | zero => intro n hn; simp [execPoll] at hn
    | succ f ih =>
      intro n hn
      simp only [execPoll] at hn
      by_cases hr : ready n
      · simp [hr] at hn
      · by_cases he : elapsed n > timeout
        · simp [hr, he] at hn
          exact hn.symm
        · simp [hr, he] at hn
          exact ih (n + 1) hn
  have hch := main fuel 0 h
  rw [hch]
  exact ⟨rfl, rfl, rfl⟩

/-- C7 witness: a command that is never ready with a 0-second timeout: the
loop raises at the second poll with all three channels closed. -/
theorem C7_timeout_closes_channels_witness :
    execute_ssh_command (fun _ => false) (fun n => n) 0 "" "" 2 =
      some (⟨true, true, true⟩, ExecOutcome.timedOutRaised) ∧
    ((⟨true, true, true⟩ : Channels).stdinClosed = true ∧
      (⟨true, true, true⟩ : Channels).stdoutClosed = true ∧
      (⟨true, true, true⟩ : Channels).stderrClosed = true) :=
  ⟨rfl,
   C7_timeout_closes_channels (fun _ => false) (fun n => n) 0 "" "" 2
     ⟨true, true, true⟩ rfl⟩

/-- C8: device isolation.  The orchestrator runs one pipeline per device, each
a function of that device's own environment only: whatever failures any other
device's environment injects (permanent connection failure included), device
`b`'s event trace (log content) and terminal status are unchanged as long as
`b`'s own environment is unchanged. -/
theorem C8_device_isolation (envs₁ envs₂ : List Env) (cmds : List Cmd) (b : Nat)
    (h : envs₁[b]? = envs₂[b]?) :
    (runAll envs₁ cmds)[b]? = (runAll envs₂ cmds)[b]? := by
  simp [runAll, List.getElem?_map, h]

/-- C8 witness: two devices; device 0's connection permanently fails in the
first run and is healthy in the second; device 1's trace and status are
identical in both runs. -/
theorem C8_device_isolation_witness :
    ([deadEnv, okEnv][1]? = [okEnv, okEnv][1]?) ∧
    (runAll [deadEnv, okEnv] [cmdA])[1]? = (runAll [okEnv, okEnv] [cmdA])[1]? :=
  ⟨rfl, C8_device_isolation [deadEnv, okEnv] [okEnv, okEnv] [cmdA] 1 rfl⟩

end PyToys
